import Mathlib

/-!
Verification of the resume claim-verification pipeline (Flask backend `api.py`
and Gradio front end `app.py`) against its natural-language specification.

Scores are shallowly embedded as exact rationals.  Python dictionaries become
structures, list comprehensions become `List.countP` / `List.filter`, and the
Python `dict` built by `generate_enhanced_claim_analysis` becomes a
last-write-wins association lookup.  External pipeline stages (document
parsing, oracle-driven claim extraction, evidence validation, the red-flag
oracle) are parameters of the orchestrator functions, exactly where the two
entry points call into modules that live outside the analysed sources.
-/

/-- `ParsedDocument` from section 3 of the design: raw text plus named
sections, as produced by the external `CVParser.parse`. -/
structure ParsedDocument where
  raw_text : String
  sections : List (String × String)
deriving DecidableEq

/-- A claim record as handled by both entry points (dict keys
`claim_id`, `claim_text`, `category`, `verifiability_level`,
`quantifiable_metrics`, `links_artifacts`). -/
structure Claim where
  claim_id : String
  claim_text : String
  category : String
  verifiability_level : String
  quantifiable_metrics : Option String
  links_artifacts : List String
deriving DecidableEq

/-- A validation record as handled by both entry points (dict keys
`claim_id`, `verification_status`, `evidence_present`,
`final_evidence_score`). -/
structure ValidationRecord where
  claim_id : String
  verification_status : String
  evidence_present : String
  final_evidence_score : ℚ
deriving DecidableEq

/-- A red flag record (dict keys `category`, `severity`, `description`,
`interview_probe`). -/
structure RedFlag where
  category : String
  severity : String
  description : String
  interview_probe : String
deriving DecidableEq

/-- The claim-metrics summary returned by the claim extractor. -/
structure ClaimMetrics where
  specificity_score : ℚ
  claims_with_metrics : Nat
  claims_with_artifacts : Nat
  buzzword_density : ℚ
  cross_referenced_skills : Nat
  total_skills : Nat
deriving DecidableEq

/-- `normalize_score` as defined inside the Flask endpoint
(`api.py` lines 142-147). -/
def normalize_score_api (score : ℚ) : ℚ :=
  if score > 100 then min 100 (score / 100)
  else if score ≤ 1 then score * 100
  else min 100 score

/-- `normalize_score` as defined inside the Gradio analysis function
(`app.py` lines 716-726). -/
def normalize_score_app (score : ℚ) : ℚ :=
  if score > 100 then min 100 (score / 100)
  else if score ≤ 1 then score * 100
  else min 100 score

/-- Round-half-even on rationals, the rounding used by Python `round`. -/
def roundHalfEven (q : ℚ) : ℤ :=
  if q - ⌊q⌋ < 1/2 then ⌊q⌋
  else if 1/2 < q - ⌊q⌋ then ⌊q⌋ + 1
  else if ⌊q⌋ % 2 = 0 then ⌊q⌋ else ⌊q⌋ + 1

/-- Python `round(x, 1)`: round half to even at one decimal place. -/
def round1 (q : ℚ) : ℚ := (roundHalfEven (q * 10) : ℚ) / 10

/-- `sum(1 for v in validations if v.get(verification_status) == verified)`
(`api.py` 172-173, `app.py` 740). -/
def verified_claims (validations : List ValidationRecord) : Nat :=
  validations.countP (fun v => v.verification_status == "verified")

/-- `sum(1 for v in validations if status in [unverified, red_flag])`
(`api.py` 174-175, `app.py` 741). -/
def unverified_claims (validations : List ValidationRecord) : Nat :=
  validations.countP
    (fun v => v.verification_status == "unverified" || v.verification_status == "red_flag")

/-- `total_claims = len(claims)` (`api.py` 171, `app.py` 739). -/
def total_claims (claims : List Claim) : Nat := claims.length

/-- The four verification statuses of the data model. -/
def statusEnum : List String := ["verified", "partial", "unverified", "red_flag"]

/-- Character-list matching at the head: `leadMatch pat l` holds when `pat`
is an initial segment of `l`. -/
def leadMatch : List Char → List Char → Bool
  | [], _ => true
  | _ :: _, [] => false
  | a :: as, b :: bs => a == b && leadMatch as bs

/-- `subMatch pat l` holds when `pat` occurs contiguously somewhere in `l`. -/
def subMatch (pat : List Char) : List Char → Bool
  | [] => pat.isEmpty
  | b :: bs => leadMatch pat (b :: bs) || subMatch pat bs

/-- Substring occurrence test used to state that a diagnostic message
mentions a given phrase. -/
def strContains (s pat : String) : Bool := subMatch pat.data s.data

/-- Python `str.lower()` as used on the form fields: characterwise
ASCII lowercasing. -/
def lowerString (s : String) : String := String.mk (s.data.map Char.toLower)

/-- Modelled from the spec: `red_flag_detector.py` is imported by both entry
points but is not among the analysed sources.  Section 4.3 fixes its
deterministic credibility policy: start at 100; subtract 20 when the
unverified-claim count exceeds half of the total claims; subtract 5 per red
flag; subtract 10 when buzzword density exceeds 0.10; add 10 when the
verified-claim count exceeds 70 percent of the total claims; clamp to the
interval from 0 to 100.  The oracle-produced flag list and buzzword density
are parameters. -/
def credibility_policy (flags : List RedFlag) (buzzword_density : ℚ)
    (claims : List Claim) (validations : List ValidationRecord) : ℚ :=
  let total : ℚ := (total_claims claims : ℚ)
  let s1 : ℚ := 100
  let s2 : ℚ := if (unverified_claims validations : ℚ) > total / 2 then s1 - 20 else s1
  let s3 : ℚ := s2 - 5 * (flags.length : ℚ)
  let s4 : ℚ := if buzzword_density > 1/10 then s3 - 10 else s3
  let s5 : ℚ := if (verified_claims validations : ℚ) > total * 7 / 10 then s4 + 10 else s4
  min 100 (max 0 s5)

/-- Modelled from the spec: risk bucketing of section 4.3 with its documented
example thresholds and the critical-flag override (a single critical flag
forces at least high risk). -/
def risk_of (final : ℚ) (flags : List RedFlag) : String :=
  let base : String :=
    if final ≥ 80 then "low"
    else if final ≥ 60 then "medium"
    else if final ≥ 40 then "high"
    else "critical"
  if flags.any (fun f => f.severity == "critical") then
    (if base = "low" ∨ base = "medium" then "high" else base)
  else base

/-- Modelled from the spec: the recommendation is a templated string selected
by the risk bucket (section 4.3). -/
def recommendation_of (risk : String) : String :=
  "Templated recommendation for risk level " ++ risk

/-- The result bundle returned by `detect_red_flags` and consumed by both
entry points (keys `red_flags`, `credibility_score`, `final_score`,
`risk_assessment`, and the recommendation found under `summary`). -/
structure RedFlagResult where
  red_flags : List RedFlag
  credibility_score : ℚ
  final_score : ℚ
  risk_assessment : String
  recommendation : String
deriving DecidableEq

/-- Modelled from the spec: `detect_red_flags` of `red_flag_detector.py` is
not among the analysed sources.  Per section 4.3 it receives the bundle of
claims, validations and the raw consistency score, computes credibility by
`credibility_policy`, and computes the final score as credibility times 0.6
plus the normalized consistency score times 0.4, rounded to one decimal; the
normalization is the single section 4.4 law, which both in-code
implementations realise.  Seniority and strictness only influence which flags
the oracle emits, so they are absorbed into the `flags` parameter. -/
def detect_red_flags (flags : List RedFlag) (buzzword_density : ℚ)
    (claims : List Claim) (validations : List ValidationRecord)
    (consistency : ℚ) : RedFlagResult :=
  let credibility := credibility_policy flags buzzword_density claims validations
  let final := round1 (credibility * (6/10) + normalize_score_app consistency * (4/10))
  { red_flags := flags
    credibility_score := credibility
    final_score := final
    risk_assessment := risk_of final flags
    recommendation := recommendation_of (risk_of final flags) }

/-- The `analysis_results` dictionary built by the Gradio orchestrator
(`app.py` 736-755).  The wall-clock `analysis_timestamp` key is outside the
embedding. -/
structure AnalysisResult where
  parsed_cv : ParsedDocument
  claims : List Claim
  total_claims : Nat
  verified_claims : Nat
  unverified_claims : Nat
  claim_metrics : ClaimMetrics
  validations : List ValidationRecord
  consistency_score : ℚ
  red_flags : List RedFlag
  total_red_flags : Nat
  credibility_score : ℚ
  final_score : ℚ
  risk_assessment : String
  recommendation : String
  seniority_level : String
  links_checked : Nat
  structure_quality : String
deriving DecidableEq

/-- The score aggregation and result construction of the Gradio orchestrator
(`app.py` 704-755): call the detector on the raw consistency score, apply
`normalize_score` once to the raw consistency score, round the three scores
to one decimal, and assemble the `analysis_results` dictionary.  The stage
outputs (claims, metrics, validations, raw consistency score, oracle flags)
are parameters because the stages call external modules. -/
def gradio_analyze (parsed_cv : ParsedDocument) (claims : List Claim)
    (metrics : ClaimMetrics) (validations : List ValidationRecord)
    (consistency_raw : ℚ) (flags : List RedFlag)
    (seniority_level : String) : AnalysisResult :=
  let red_flag_result := detect_red_flags flags metrics.buzzword_density claims validations consistency_raw
  let consistency_score := normalize_score_app consistency_raw
  let final_score := round1 red_flag_result.final_score
  let credibility_score := round1 red_flag_result.credibility_score
  let consistency_rounded := round1 consistency_score
  { parsed_cv := parsed_cv
    claims := claims
    total_claims := total_claims claims
    verified_claims := verified_claims validations
    unverified_claims := unverified_claims validations
    claim_metrics := metrics
    validations := validations
    consistency_score := consistency_rounded
    red_flags := red_flag_result.red_flags
    total_red_flags := red_flag_result.red_flags.length
    credibility_score := credibility_score
    final_score := final_score
    risk_assessment := red_flag_result.risk_assessment
    recommendation := red_flag_result.recommendation
    seniority_level := seniority_level
    links_checked := claims.countP (fun c => !c.links_artifacts.isEmpty)
    structure_quality := "Well-organized" }

/-- The write performed on the shared analysis dictionary by
`generate_comprehensive_analysis_display` (`app.py` 86-88): the
`consistency_score` entry is reassigned to `min(100, ...)` of itself. -/
def display_fix (r : AnalysisResult) : AnalysisResult :=
  { r with consistency_score := min 100 r.consistency_score }

/-- The write performed on the stored analysis dictionary by `export_report`
(`app.py` 813-814): the `consistency_score` entry is reassigned to
`min(100, ...)` of itself. -/
def export_fix (r : AnalysisResult) : AnalysisResult :=
  { r with consistency_score := min 100 r.consistency_score }

/-- The process-wide `current_session` slot of `app.py` (34-39), restricted
to the state the embedding tracks. -/
structure Session where
  initialized : Bool
  last_analysis : Option AnalysisResult
deriving DecidableEq

/-- `current_session[last_analysis] = analysis_results` (`app.py` 758). -/
def store_last_analysis (s : Session) (r : AnalysisResult) : Session :=
  { s with last_analysis := some r }

/-- Effect of running the display generation after the store: the display
mutates the very dictionary the session holds (`app.py` 86-88, 781). -/
def session_after_display (s : Session) : Session :=
  { s with last_analysis := s.last_analysis.map display_fix }

/-- Effect of running report export on the session: `export_report` reads
`last_analysis` and reassigns its `consistency_score` (`app.py` 811-814). -/
def session_after_export (s : Session) : Session :=
  { s with last_analysis := s.last_analysis.map export_fix }

/-- The four pipeline stages (section 2), used to record which stages a
request actually reaches. -/
inductive Stage
  | parse
  | extract
  | validate
  | detect
deriving DecidableEq

/-- The form data of a `/api/analyze` request (`api.py` 71-81): presence of a
file part, the filename, and the optional form fields with their defaults
applied by `request.form.get`. -/
structure ApiRequest where
  has_file : Bool
  filename : String
  seniority_field : Option String
  strictness_field : Option String
  deep_field : Option String
deriving DecidableEq

/-- `valid_seniority` (`api.py` 84). -/
def validSeniority : List String := ["intern", "junior", "mid", "senior", "lead"]

/-- `valid_strictness` (`api.py` 85). -/
def validStrictness : List String := ["low", "medium", "high"]

/-- The analysis payload assembled by the Flask endpoint
(`api.py` 157-186), restricted to the embedded fields. -/
structure ApiAnalysis where
  final_score : ℚ
  credibility_score : ℚ
  consistency_score : ℚ
  risk_assessment : String
  total_claims : Nat
  verified_claims : Nat
  unverified_claims : Nat
  total_red_flags : Nat
  recommendation : String
  claim_metrics : ClaimMetrics
deriving DecidableEq

/-- Outcome of the Flask endpoint: an HTTP error response (message, optional
suggestion string, status code) or the analysis payload.  Apostrophes and the
Python list repr are elided from the embedded message texts. -/
inductive ApiOutcome
  | error (msg : String) (suggestion : Option String) (status : Nat)
  | ok (result : ApiAnalysis)
deriving DecidableEq

/-- Whether an outcome is an error response. -/
def ApiOutcome.isErr : ApiOutcome → Bool
  | .error _ _ _ => true
  | .ok _ => false

/-- The pipeline portion of the Flask endpoint (`api.py` 106-190), entered
only after the boundary checks pass: parse, extract (with the zero-claims
early return of lines 115-119), validate, detect, then score normalization
and result assembly (141-186).  The external stage implementations are
parameters; the returned list records the stages that were invoked. -/
def api_pipeline
    (parse : String → ParsedDocument)
    (extract_claims : ParsedDocument → String → List Claim × ClaimMetrics)
    (validate_evidence : List Claim → String → Bool → Bool → List ValidationRecord × ℚ)
    (detect : List Claim → List ValidationRecord → ℚ → String → RedFlagResult)
    (req : ApiRequest) : ApiOutcome × List Stage :=
  let seniority := lowerString (req.seniority_field.getD "mid")
  let deep_analysis := lowerString (req.deep_field.getD "false") == "true"
  let parsed_cv := parse req.filename
  let extracted := extract_claims parsed_cv seniority
  let claims := extracted.1
  let metrics := extracted.2
  if claims.isEmpty then
    (.error "No claims found in resume"
      (some "Ensure resume includes work experience, projects, or skills") 400,
     [Stage.parse, Stage.extract])
  else
    let validated := validate_evidence claims parsed_cv.raw_text deep_analysis deep_analysis
    let validations := validated.1
    let consistency_raw := validated.2
    let red_flag_result := detect claims validations consistency_raw seniority
    let consistency_score := normalize_score_api consistency_raw
    let final_score := round1 red_flag_result.final_score
    let credibility_score := round1 red_flag_result.credibility_score
    let consistency_rounded := round1 consistency_score
    (.ok { final_score := final_score
           credibility_score := credibility_score
           consistency_score := consistency_rounded
           risk_assessment := red_flag_result.risk_assessment
           total_claims := total_claims claims
           verified_claims := verified_claims validations
           unverified_claims := unverified_claims validations
           total_red_flags := red_flag_result.red_flags.length
           recommendation := red_flag_result.recommendation
           claim_metrics := metrics },
     [Stage.parse, Stage.extract, Stage.validate, Stage.detect])

/-- The full Flask endpoint `analyze_resume` (`api.py` 69-190): file checks,
then the enum boundary of lines 79-91 (values are lowercased, defaults `mid`
and `medium` applied, invalid values rejected with a 400 response before any
pipeline stage runs), then the pipeline. -/
def api_analyze
    (parse : String → ParsedDocument)
    (extract_claims : ParsedDocument → String → List Claim × ClaimMetrics)
    (validate_evidence : List Claim → String → Bool → Bool → List ValidationRecord × ℚ)
    (detect : List Claim → List ValidationRecord → ℚ → String → RedFlagResult)
    (req : ApiRequest) : ApiOutcome × List Stage :=
  if req.has_file = false then (.error "No file uploaded" none 400, [])
  else if req.filename = "" then (.error "Empty filename" none 400, [])
  else if lowerString (req.seniority_field.getD "mid") ∉ validSeniority then
    (.error "Invalid seniority. Must be one of: intern, junior, mid, senior, lead" none 400, [])
  else if lowerString (req.strictness_field.getD "medium") ∉ validStrictness then
    (.error "Invalid strictness. Must be one of: low, medium, high" none 400, [])
  else
    api_pipeline parse extract_claims validate_evidence detect req

/-- The zero-claims diagnostic classifier of the Gradio orchestrator
(`app.py` 679-693): inspect the parsed document and pick a specific message
(document too short, no sections detected, a single section, or a generic
fallback naming the detected sections). -/
def diagnose_zero_claims (parsed_cv : ParsedDocument) : String :=
  let resume_length := parsed_cv.raw_text.length
  let sections_found := parsed_cv.sections.map Prod.fst
  if resume_length < 100 then
    "⚠️ Resume too short (< 100 words). Please upload a complete resume with work experience, projects, or skills."
  else if sections_found.length = 0 then
    "⚠️ Could not parse resume structure. Please ensure the file is a valid PDF, DOCX, or TXT with clear sections."
  else if sections_found = ["education"] ∨ sections_found.length = 1 then
    "⚠️ Only found " ++ sections_found.headD "" ++ " section. Please add:\n• Work experience\n• Projects\n• Skills\n• Achievements"
  else
    "⚠️ No analyzable claims found. Sections detected: " ++ String.intercalate ", " sections_found
      ++ ".\n\nEnsure resume includes specific achievements, not just responsibilities."

/-- The validation lookup of `generate_enhanced_claim_analysis`
(`app.py` 468-486): a dict keyed by `claim_id` is built by iterating over the
validations (records with an empty id are skipped; a later record with the
same id overwrites an earlier one), and each claim is looked up by its own
`claim_id` with an empty-dict default. -/
def lookup_validation (validations : List ValidationRecord) (cid : String) :
    Option ValidationRecord :=
  if cid = "" then none
  else (validations.filter (fun v => v.claim_id == cid)).getLast?

/-- The validation paired with a claim in the claim-by-claim analysis
(`app.py` 484-486, 503-504). -/
def paired_validation (validations : List ValidationRecord) (cl : Claim) :
    Option ValidationRecord :=
  lookup_validation validations cl.claim_id

/-- A fifty-character document body used in the zero-claims scenarios. -/
def doc50 : ParsedDocument :=
  { raw_text := "ABCDEFGHIJABCDEFGHIJABCDEFGHIJABCDEFGHIJABCDEFGHIJ", sections := [] }

/-- A parser stub returning the fifty-character document. -/
def parse50 : String → ParsedDocument := fun _ => doc50

/-- An extractor stub returning zero claims. -/
def extractNone : ParsedDocument → String → List Claim × ClaimMetrics :=
  fun _ _ => ([], { specificity_score := 0, claims_with_metrics := 0,
                    claims_with_artifacts := 0, buzzword_density := 0,
                    cross_referenced_skills := 0, total_skills := 0 })

/-- A validator stub returning no validations and a zero consistency score. -/
def validateNone : List Claim → String → Bool → Bool → List ValidationRecord × ℚ :=
  fun _ _ _ _ => ([], 0)

/-- A detector stub returning an empty flag set and zero scores. -/
def detectNone : List Claim → List ValidationRecord → ℚ → String → RedFlagResult :=
  fun _ _ _ _ => { red_flags := [], credibility_score := 0, final_score := 0,
                   risk_assessment := "low", recommendation := "" }

/-- A well-formed request with zero-claims content. -/
def req50 : ApiRequest :=
  { has_file := true, filename := "resume.txt", seniority_field := some "mid",
    strictness_field := some "medium", deep_field := some "false" }

/-- A request carrying a seniority value outside the accepted enum. -/
def reqBadSeniority : ApiRequest :=
  { has_file := true, filename := "resume.txt", seniority_field := some "boss",
    strictness_field := some "medium", deep_field := some "false" }

/-- A claim whose id is duplicated across two validation records. -/
def cDup : Claim :=
  { claim_id := "c1", claim_text := "Led project X", category := "project",
    verifiability_level := "high", quantifiable_metrics := none, links_artifacts := [] }

/-- First validation record for `cDup` (status verified). -/
def vDup1 : ValidationRecord :=
  { claim_id := "c1", verification_status := "verified", evidence_present := "direct",
    final_evidence_score := 1 }

/-- Second validation record with the same claim id (status unverified). -/
def vDup2 : ValidationRecord :=
  { claim_id := "c1", verification_status := "unverified", evidence_present := "none",
    final_evidence_score := 0 }

/-- A claim with id c2, used for the keyed-pairing witness. -/
def cW : Claim :=
  { claim_id := "c2", claim_text := "Built service Y", category := "work_experience",
    verifiability_level := "medium", quantifiable_metrics := none, links_artifacts := [] }

/-- A validation record keyed c1. -/
def vW1 : ValidationRecord :=
  { claim_id := "c1", verification_status := "verified", evidence_present := "direct",
    final_evidence_score := 1 }

/-- A validation record keyed c2. -/
def vW2 : ValidationRecord :=
  { claim_id := "c2", verification_status := "partial", evidence_present := "contextual",
    final_evidence_score := 0 }

/-- Three dummy claims for the derived-counts witness. -/
def claims3 : List Claim :=
  [ { claim_id := "c1", claim_text := "a", category := "skill",
      verifiability_level := "high", quantifiable_metrics := none, links_artifacts := [] },
    { claim_id := "c2", claim_text := "b", category := "project",
      verifiability_level := "medium", quantifiable_metrics := none, links_artifacts := [] },
    { claim_id := "c3", claim_text := "c", category := "education",
      verifiability_level := "low", quantifiable_metrics := none, links_artifacts := [] } ]

/-- Validation records for `claims3`: one verified, one partial, one
unverified. -/
def vals3 : List ValidationRecord :=
  [ { claim_id := "c1", verification_status := "verified", evidence_present := "direct",
      final_evidence_score := 1 },
    { claim_id := "c2", verification_status := "partial", evidence_present := "contextual",
      final_evidence_score := 0 },
    { claim_id := "c3", verification_status := "unverified", evidence_present := "none",
      final_evidence_score := 0 } ]

theorem roundHalfEven_intCast (m : ℤ) : roundHalfEven (m : ℚ) = m := by
  unfold roundHalfEven
  rw [Int.floor_intCast, sub_self]
  norm_num

theorem roundHalfEven_le {q : ℚ} {n : ℤ} (h : q ≤ (n : ℚ)) : roundHalfEven q ≤ n := by
  have hf : ⌊q⌋ ≤ n := by
    have hmono := Int.floor_le_floor h
    rwa [Int.floor_intCast] at hmono
  have hplus : ¬(q - ⌊q⌋ < 1/2) → ⌊q⌋ + 1 ≤ n := by
    intro h1
    have hq : (⌊q⌋ : ℚ) + 1/2 ≤ q := by
      have h2 := not_lt.mp h1
      linarith
    have hcast : (⌊q⌋ : ℚ) < (n : ℚ) := by linarith
    have hlt : ⌊q⌋ < n := by exact_mod_cast hcast
    omega
  unfold roundHalfEven
  split_ifs with h1 h2 h3
  · exact hf
  · exact hplus h1
  · exact hf
  · exact hplus h1

theorem round1_le_100 {q : ℚ} (h : q ≤ 100) : round1 q ≤ 100 := by
  have h1 : q * 10 ≤ ((1000 : ℤ) : ℚ) := by push_cast; linarith
  have h2 : roundHalfEven (q * 10) ≤ 1000 := roundHalfEven_le h1
  have h3 : ((roundHalfEven (q * 10) : ℤ) : ℚ) ≤ 1000 := by exact_mod_cast h2
  unfold round1
  rw [div_le_iff₀ (by norm_num : (0:ℚ) < 10)]
  linarith

theorem round1_idem (q : ℚ) : round1 (round1 q) = round1 q := by
  unfold round1
  rw [div_mul_cancel₀ _ (by norm_num : (10:ℚ) ≠ 0), roundHalfEven_intCast]

theorem normalize_score_app_le_100 (s : ℚ) : normalize_score_app s ≤ 100 := by
  unfold normalize_score_app
  split_ifs with h1 h2
  · exact min_le_left _ _
  · linarith
  · exact min_le_left _ _

theorem verified_add_unverified_le_length (l : List ValidationRecord) :
    verified_claims l + unverified_claims l ≤ l.length := by
  unfold verified_claims unverified_claims
  induction l with
  | nil => simp
  | cons a t ih =>
    simp only [List.countP_cons, List.length_cons]
    split_ifs with h1 h2
    · exfalso
      have he : a.verification_status = "verified" := beq_iff_eq.mp h1
      rw [he] at h2
      simp at h2
    · omega
    · omega
    · omega

theorem filter_claim_id_length_le_one {l : List ValidationRecord}
    (hnd : (l.map (fun v => v.claim_id)).Nodup) (c : String) :
    (l.filter (fun v => v.claim_id == c)).length ≤ 1 := by
  induction l with
  | nil => simp
  | cons a t ih =>
    rw [List.map_cons, List.nodup_cons] at hnd
    by_cases h : a.claim_id = c
    · have hf : t.filter (fun v => v.claim_id == c) = [] := by
        rw [List.filter_eq_nil_iff]
        intro v hv hvc
        apply hnd.1
        rw [List.mem_map]
        refine ⟨v, hv, ?_⟩
        have hvc2 : v.claim_id = c := beq_iff_eq.mp hvc
        rw [hvc2, h]
      have hcons : (a :: t).filter (fun v => v.claim_id == c)
          = a :: t.filter (fun v => v.claim_id == c) := by
        simp [List.filter_cons, beq_iff_eq, h]
      rw [hcons, hf]
      simp
    · have hcons : (a :: t).filter (fun v => v.claim_id == c)
          = t.filter (fun v => v.claim_id == c) := by
        simp [List.filter_cons, beq_iff_eq, h]
      rw [hcons]
      exact ih hnd.2

theorem lookup_validation_perm {vs vs' : List ValidationRecord}
    (hnd : (vs.map (fun v => v.claim_id)).Nodup) (hperm : vs.Perm vs') (cid : String) :
    lookup_validation vs cid = lookup_validation vs' cid := by
  unfold lookup_validation
  split_ifs with h
  · rfl
  · have hp : (vs.filter (fun v => v.claim_id == cid)).Perm
        (vs'.filter (fun v => v.claim_id == cid)) := hperm.filter _
    have h1 := filter_claim_id_length_le_one hnd cid
    have heq : vs.filter (fun v => v.claim_id == cid)
        = vs'.filter (fun v => v.claim_id == cid) := by
      rcases hf : vs.filter (fun v => v.claim_id == cid) with _ | ⟨a, t⟩
      · rw [hf] at hp
        rw [hf, List.nil_perm.mp hp]
      · rw [hf] at hp h1 ⊢
        have ht : t = [] := by
          rw [List.length_cons] at h1
          have h0 : t.length = 0 := by omega
          exact List.length_eq_zero.mp h0
        subst ht
        exact List.singleton_perm.mp hp
    rw [heq]

theorem paired_validation_claim_id (vs : List ValidationRecord) (cl : Claim)
    (v : ValidationRecord) (h : paired_validation vs cl = some v) :
    v.claim_id = cl.claim_id := by
  unfold paired_validation lookup_validation at h
  split_ifs at h with hcid
  have hmem := List.mem_of_getLast?_eq_some h
  have hfil := List.mem_filter.mp hmem
  exact beq_iff_eq.mp hfil.2

/-- Evaluation of the Gradio normalization at the over-scaled input 250. -/
theorem normalize_app_at_250 : normalize_score_app 250 = 5/2 := by
  unfold normalize_score_app
  rw [if_pos (by norm_num : (250:ℚ) > 100),
    min_eq_right (by norm_num : (250:ℚ)/100 ≤ 100)]
  norm_num

/-- Evaluation of the Flask normalization at the over-scaled input 250. -/
theorem normalize_api_at_250 : normalize_score_api 250 = 5/2 := by
  unfold normalize_score_api
  rw [if_pos (by norm_num : (250:ℚ) > 100),
    min_eq_right (by norm_num : (250:ℚ)/100 ≤ 100)]
  norm_num

/-- C2 counterexample: contrary to the claim, the normalization function
applied to the over-scaled input 250 does not return 100 — the over-scaled
branch returns `min(100, 250/100) = 2.5` in both implementations. -/
theorem normalize_250_not_100 :
    normalize_score_api 250 ≠ 100 ∧ normalize_score_app 250 ≠ 100 := by
  rw [normalize_api_at_250, normalize_app_at_250]
  norm_num

/-- C2 (amended): the normalization function applied to 250 returns 2.5,
the value `min(100, 250/100)` prescribed by the over-scaled branch. -/
theorem normalize_250_eq_five_halves :
    normalize_score_api 250 = 5/2 ∧ normalize_score_app 250 = 5/2 :=
  ⟨normalize_api_at_250, normalize_app_at_250⟩

/-- C3: for every input `s ≤ 1` both normalization implementations take the
fractional branch and return `s * 100`; in particular 0.85 maps to 85 and
the boundary value 1 maps to 100. -/
theorem normalize_le_one_branch (s : ℚ) (h : s ≤ 1) :
    normalize_score_app s = s * 100 ∧ normalize_score_api s = s * 100 := by
  have hng : ¬ s > 100 := by linarith
  unfold normalize_score_app normalize_score_api
  rw [if_neg hng, if_pos h]
  exact ⟨rfl, rfl⟩

/-- C3 witness: the fractional branch at the concrete inputs 0.85 and 1. -/
theorem normalize_le_one_branch_witness :
    normalize_score_app (17/20) = 85 ∧ normalize_score_api (17/20) = 85
    ∧ normalize_score_app 1 = 100 := by
  have h1 := normalize_le_one_branch (17/20) (by norm_num)
  have h2 := normalize_le_one_branch 1 (by norm_num)
  refine ⟨?_, ?_, ?_⟩
  · rw [h1.1]; norm_num
  · rw [h1.2]; norm_num
  · rw [h2.1]; norm_num

/-- Evaluation of the Gradio normalization at the in-range input 0.5. -/
theorem normalize_app_at_half : normalize_score_app (1/2) = 50 := by
  unfold normalize_score_app
  rw [if_neg (by norm_num : ¬ (1/2:ℚ) > 100), if_pos (by norm_num : (1/2:ℚ) ≤ 1)]
  norm_num

/-- Evaluation of the Flask normalization at the in-range input 0.5. -/
theorem normalize_api_at_half : normalize_score_api (1/2) = 50 := by
  unfold normalize_score_api
  rw [if_neg (by norm_num : ¬ (1/2:ℚ) > 100), if_pos (by norm_num : (1/2:ℚ) ≤ 1)]
  norm_num

/-- C4 counterexample: 0.5 lies in `[0,100]` and differs from 1, yet the
normalization function maps it to 50, not to itself — idempotence fails on
the whole interval `(0,1)`. -/
theorem normalize_not_idempotent_on_half :
    (0:ℚ) ≤ 1/2 ∧ (1/2:ℚ) ≤ 100 ∧ (1/2:ℚ) ≠ 1
    ∧ normalize_score_app (1/2) = 50 ∧ normalize_score_api (1/2) = 50
    ∧ (50:ℚ) ≠ 1/2 := by
  refine ⟨by norm_num, by norm_num, by norm_num,
    normalize_app_at_half, normalize_api_at_half, by norm_num⟩

/-- C4 (amended): the normalization function is the identity on already
normalized scores of `[0,100]` that are 0 or exceed 1; inputs in `(0,1]`
take the fractional branch instead and are rescaled by 100. -/
theorem normalize_idempotent_off_unit_interval (s : ℚ)
    (h : s = 0 ∨ (1 < s ∧ s ≤ 100)) :
    normalize_score_app s = s ∧ normalize_score_api s = s := by
  rcases h with h0 | ⟨h1, h2⟩
  · subst h0
    constructor
    · unfold normalize_score_app
      norm_num
    · unfold normalize_score_api
      norm_num
  · have hng : ¬ s > 100 := by linarith
    have hn1 : ¬ s ≤ 1 := by linarith
    unfold normalize_score_app normalize_score_api
    rw [if_neg hng, if_neg hn1]
    exact ⟨min_eq_right h2, min_eq_right h2⟩

/-- C4 witness: idempotence at the concrete in-range input 42. -/
theorem normalize_idempotent_off_unit_interval_witness :
    normalize_score_app 42 = 42 ∧ normalize_score_api 42 = 42 :=
  normalize_idempotent_off_unit_interval 42 (Or.inr ⟨by norm_num, by norm_num⟩)

/-- C10: the `normalize_score` defined in the Flask analyze endpoint and the
`normalize_score` defined in the Gradio analyze function compute the same
function on every rational input. -/
theorem normalize_implementations_agree :
    ∀ s : ℚ, normalize_score_api s = normalize_score_app s := fun _ => rfl

/-- C1: in the Gradio orchestrator the score-normalization rule is applied to
the raw consistency score exactly once on each path, after the validator and
detector stages produce their outputs: the stored `consistency_score` equals
the once-normalized (then once-rounded) raw value; the final score equals the
spec 4.3 formula over the once-normalized consistency value, so the
consistency value entering the final-score formula is the normalized one; and
the display-time and export-time `min(100, .)` reassignments leave the stored
value unchanged, so no second correction alters it. -/
theorem consistency_normalized_exactly_once (parsed_cv : ParsedDocument)
    (claims : List Claim) (metrics : ClaimMetrics)
    (validations : List ValidationRecord) (consistency_raw : ℚ)
    (flags : List RedFlag) (seniority_level : String) :
    (gradio_analyze parsed_cv claims metrics validations consistency_raw flags
        seniority_level).consistency_score
      = round1 (normalize_score_app consistency_raw)
    ∧ (gradio_analyze parsed_cv claims metrics validations consistency_raw flags
        seniority_level).final_score
      = round1 (credibility_policy flags metrics.buzzword_density claims validations * (6/10)
          + normalize_score_app consistency_raw * (4/10))
    ∧ display_fix (gradio_analyze parsed_cv claims metrics validations consistency_raw flags
        seniority_level)
      = gradio_analyze parsed_cv claims metrics validations consistency_raw flags seniority_level
    ∧ export_fix (gradio_analyze parsed_cv claims metrics validations consistency_raw flags
        seniority_level)
      = gradio_analyze parsed_cv claims metrics validations consistency_raw flags seniority_level := by
  have hle : (gradio_analyze parsed_cv claims metrics validations consistency_raw flags
      seniority_level).consistency_score ≤ 100 := by
    show round1 (normalize_score_app consistency_raw) ≤ 100
    exact round1_le_100 (normalize_score_app_le_100 _)
  have hd : display_fix (gradio_analyze parsed_cv claims metrics validations consistency_raw flags
      seniority_level)
      = gradio_analyze parsed_cv claims metrics validations consistency_raw flags seniority_level := by
    unfold display_fix
    rw [min_eq_right hle]
  have he : export_fix (gradio_analyze parsed_cv claims metrics validations consistency_raw flags
      seniority_level)
      = gradio_analyze parsed_cv claims metrics validations consistency_raw flags seniority_level := by
    unfold export_fix
    rw [min_eq_right hle]
  refine ⟨rfl, ?_, hd, he⟩
  show round1 (round1 (credibility_policy flags metrics.buzzword_density claims validations * (6/10)
      + normalize_score_app consistency_raw * (4/10)))
    = round1 (credibility_policy flags metrics.buzzword_density claims validations * (6/10)
      + normalize_score_app consistency_raw * (4/10))
  exact round1_idem _

/-- C5: for validation records carrying one of the four statuses, the
derived counts of the orchestrators are exactly the number of verified
records and the number of unverified-or-red-flag records, and under the
one-record-per-claim invariant their sum never exceeds the total claim count
(records with status partial are counted in neither bucket). -/
theorem derived_counts_policy (claims : List Claim)
    (validations : List ValidationRecord)
    (hlen : validations.length = claims.length)
    (henum : ∀ v ∈ validations, v.verification_status ∈ statusEnum) :
    verified_claims validations
      = (validations.filter (fun v => v.verification_status == "verified")).length
    ∧ unverified_claims validations
      = (validations.filter (fun v => v.verification_status == "unverified"
          || v.verification_status == "red_flag")).length
    ∧ verified_claims validations + unverified_claims validations ≤ total_claims claims := by
  refine ⟨?_, ?_, ?_⟩
  · unfold verified_claims
    exact List.countP_eq_length_filter _ validations
  · unfold unverified_claims
    exact List.countP_eq_length_filter _ validations
  · calc verified_claims validations + unverified_claims validations
        ≤ validations.length := verified_add_unverified_le_length validations
      _ = claims.length := hlen
      _ = total_claims claims := rfl

/-- C5 witness: the derived-count policy on a concrete three-claim set with
one verified, one partial and one unverified record. -/
theorem derived_counts_policy_witness :
    verified_claims vals3 + unverified_claims vals3 ≤ total_claims claims3
    ∧ verified_claims vals3 = 1 ∧ unverified_claims vals3 = 1 := by
  refine ⟨(derived_counts_policy claims3 vals3 rfl (by decide)).2.2, by decide, by decide⟩

/-- C6: once the analysis result is stored as the last analysis of the session,
running the display generation and then the report export (the only later
operations that write to it) leaves the stored result — every field of it —
exactly as constructed. -/
theorem last_analysis_unchanged_by_display_and_export (parsed_cv : ParsedDocument)
    (claims : List Claim) (metrics : ClaimMetrics)
    (validations : List ValidationRecord) (consistency_raw : ℚ)
    (flags : List RedFlag) (seniority_level : String) (s : Session) :
    session_after_export (session_after_display (store_last_analysis s
        (gradio_analyze parsed_cv claims metrics validations consistency_raw flags seniority_level)))
      = store_last_analysis s
        (gradio_analyze parsed_cv claims metrics validations consistency_raw flags seniority_level) := by
  have hle : (gradio_analyze parsed_cv claims metrics validations consistency_raw flags
      seniority_level).consistency_score ≤ 100 := by
    show round1 (normalize_score_app consistency_raw) ≤ 100
    exact round1_le_100 (normalize_score_app_le_100 _)
  have hd : display_fix (gradio_analyze parsed_cv claims metrics validations consistency_raw flags
      seniority_level)
      = gradio_analyze parsed_cv claims metrics validations consistency_raw flags seniority_level := by
    unfold display_fix
    rw [min_eq_right hle]
  have he : export_fix (gradio_analyze parsed_cv claims metrics validations consistency_raw flags
      seniority_level)
      = gradio_analyze parsed_cv claims metrics validations consistency_raw flags seniority_level := by
    unfold export_fix
    rw [min_eq_right hle]
  unfold store_last_analysis session_after_display session_after_export
  simp [hd, he]

/-- C7 counterexample: the Flask endpoint also orchestrates the pipeline, yet
on a request whose extraction yields zero claims over a 50-character document
it answers with the fixed generic message (and suggestion), neither of which
mentions "too short". -/
theorem api_zero_claims_generic_message :
    (api_analyze parse50 extractNone validateNone detectNone req50).1
      = ApiOutcome.error "No claims found in resume"
          (some "Ensure resume includes work experience, projects, or skills") 400
    ∧ strContains "No claims found in resume" "too short" = false
    ∧ strContains "Ensure resume includes work experience, projects, or skills" "too short" = false := by
  refine ⟨?_, by decide, by decide⟩
  rfl

/-- C7 (amended): when claim extraction yields zero claims the Gradio
orchestrator does not raise but runs the diagnostic classifier; for every
parsed document whose raw text has length 50 the classifier takes the
too-short branch and the returned message mentions "too short". -/
theorem gradio_zero_claims_too_short (doc : ParsedDocument)
    (h : doc.raw_text.length = 50) :
    diagnose_zero_claims doc
      = "⚠️ Resume too short (< 100 words). Please upload a complete resume with work experience, projects, or skills."
    ∧ strContains (diagnose_zero_claims doc) "too short" = true := by
  have hmsg : diagnose_zero_claims doc
      = "⚠️ Resume too short (< 100 words). Please upload a complete resume with work experience, projects, or skills." := by
    simp only [diagnose_zero_claims]
    rw [if_pos (show doc.raw_text.length < 100 by omega)]
  refine ⟨hmsg, ?_⟩
  rw [hmsg]
  decide

/-- C7 witness: the amended diagnostic at a concrete 50-character document. -/
theorem gradio_zero_claims_too_short_witness :
    strContains (diagnose_zero_claims doc50) "too short" = true :=
  (gradio_zero_claims_too_short doc50 (by decide)).2

/-- C8: any request whose effective (defaulted, lowercased) seniority value
falls outside the accepted enum, or whose effective strictness value does, is
answered by the request boundary with an error, and no pipeline stage
(parsing, claim extraction, validation, red-flag detection) is invoked,
whatever the stage implementations are. -/
theorem invalid_enum_rejected_before_pipeline
    (parse : String → ParsedDocument)
    (extract_claims : ParsedDocument → String → List Claim × ClaimMetrics)
    (validate_evidence : List Claim → String → Bool → Bool → List ValidationRecord × ℚ)
    (detect : List Claim → List ValidationRecord → ℚ → String → RedFlagResult)
    (req : ApiRequest)
    (h : lowerString (req.seniority_field.getD "mid") ∉ validSeniority
       ∨ lowerString (req.strictness_field.getD "medium") ∉ validStrictness) :
    (api_analyze parse extract_claims validate_evidence detect req).1.isErr = true
    ∧ (api_analyze parse extract_claims validate_evidence detect req).2 = [] := by
  by_cases h1 : req.has_file = false
  · unfold api_analyze
    rw [if_pos h1]
    exact ⟨rfl, rfl⟩
  · by_cases h2 : req.filename = ""
    · unfold api_analyze
      rw [if_neg h1, if_pos h2]
      exact ⟨rfl, rfl⟩
    · rcases h with h | h
      · unfold api_analyze
        rw [if_neg h1, if_neg h2, if_pos h]
        exact ⟨rfl, rfl⟩
      · by_cases h3 : lowerString (req.seniority_field.getD "mid") ∉ validSeniority
        · unfold api_analyze
          rw [if_neg h1, if_neg h2, if_pos h3]
          exact ⟨rfl, rfl⟩
        · unfold api_analyze
          rw [if_neg h1, if_neg h2, if_neg h3, if_pos h]
          exact ⟨rfl, rfl⟩

/-- C8 witness: a request with seniority value boss is rejected with an
error and an empty list of invoked stages. -/
theorem invalid_enum_rejected_before_pipeline_witness :
    (api_analyze parse50 extractNone validateNone detectNone reqBadSeniority).1.isErr = true
    ∧ (api_analyze parse50 extractNone validateNone detectNone reqBadSeniority).2 = [] :=
  invalid_enum_rejected_before_pipeline parse50 extractNone validateNone detectNone
    reqBadSeniority (Or.inl (by decide))

/-- C9 counterexample: with two validation records sharing the claim id c1,
the dict built by the claim-by-claim analysis is last-write-wins, so
permuting the validations list changes the validation paired with the
claim — the universally quantified claim fails. -/
theorem pairing_depends_on_order_with_duplicate_ids :
    paired_validation [vDup1, vDup2] cDup = some vDup2
    ∧ paired_validation [vDup2, vDup1] cDup = some vDup1
    ∧ vDup1 ≠ vDup2
    ∧ List.Perm [vDup1, vDup2] [vDup2, vDup1] := by
  refine ⟨rfl, rfl, by decide, List.Perm.swap _ _ _⟩

/-- C9 (amended): the pairing is keyed by claim id, never by positional
index: any record paired with a claim carries the id of that claim, and as long
as the validation records have pairwise distinct claim ids (the
one-record-per-claim invariant of the data model), permuting the validations
list leaves the paired validation of every claim unchanged. -/
theorem pairing_by_claim_id_perm_invariant (vs vs' : List ValidationRecord)
    (cl : Claim) (hnd : (vs.map (fun v => v.claim_id)).Nodup)
    (hperm : vs.Perm vs') :
    (∀ v, paired_validation vs cl = some v → v.claim_id = cl.claim_id)
    ∧ paired_validation vs cl = paired_validation vs' cl := by
  constructor
  · intro v hv
    exact paired_validation_claim_id vs cl v hv
  · unfold paired_validation
    exact lookup_validation_perm hnd hperm _

/-- C9 witness: keyed pairing at a concrete two-record list with distinct
ids, invariant under the swap permutation. -/
theorem pairing_by_claim_id_perm_invariant_witness :
    paired_validation [vW1, vW2] cW = paired_validation [vW2, vW1] cW
    ∧ paired_validation [vW1, vW2] cW = some vW2 := by
  refine ⟨(pairing_by_claim_id_perm_invariant [vW1, vW2] [vW2, vW1] cW (by decide)
    (List.Perm.swap _ _ _)).2, ?_⟩
  rfl
